import Mathlib

/-!
Verification of the maubot welcome plugin (`src/welcome.py`).

The plugin is embedded shallowly: each outbound network call made by the
code is recorded as an `Action`, each log statement as a `Log`, and a
Python exception is an `Err` carried in an `Except`.  A computation is a
value of `Out α`: the list of actions it performed, the list of log
messages it emitted, and its result (normal return or raised exception).
The environment `Env` supplies the behaviour of the matrix client and of
the HTTP endpoint; retried calls are indexed by the attempt number so a
call may fail on one attempt and succeed on another.

Time instants (`datetime.now(timezone.utc)`, `timedelta(hours=2)`) are
modelled as epoch seconds (`Nat`); the textual rendering of the current
time (`strftime`) is supplied by the environment as an opaque string,
since only its role as a disambiguating suffix matters.
-/

namespace Welcome

/-- Python exceptions, as far as the plugin distinguishes them. -/
inductive Err where
  /-- `requests.Response.raise_for_status` raised `HTTPError` for this status. -/
  | httpStatus (code : Nat)
  /-- `KeyError` from a dictionary lookup. -/
  | keyError (key : String)
  /-- `IndexError` from a list index. -/
  | indexError
  /-- An exception raised by the environment (network failure etc.). -/
  | network (msg : String)
deriving DecidableEq, Repr

/-- JSON body of the invitation POST built by `create_invite`
(`data = {...}` in the source). -/
structure InviteBody where
  name : String
  /-- `expires`: the expiry instant, as epoch seconds (the source sends its
  ISO-8601 rendering). -/
  expires : Nat
  /-- `fixed_data`: always the empty dict in the source. -/
  fixedData : List (String × String)
  singleUse : Bool
  flow : String
deriving DecidableEq, Repr

/-- Outbound calls the plugin can make. -/
inductive Action where
  /-- `client.get_joined_rooms()` -/
  | getJoinedRooms
  /-- `client.send_notice(room_id, html=message)` -/
  | sendNotice (room : String) (html : String)
  /-- `client.create_room(invitees=[user_id], is_direct=True)` -/
  | createRoom (invitee : String)
  /-- `client.send_text(room_id, message)` -/
  | sendText (room : String) (message : String)
  /-- `client.get_state_event(room_id, event_type)` -/
  | getStateEvent (room : String) (eventType : String)
  /-- `requests.post(url, headers={Authorization: Bearer <bearer>}, json=body)` -/
  | httpPost (url : String) (bearer : String) (body : InviteBody)
  /-- `asyncio.sleep(seconds)` -/
  | sleep (seconds : Nat)
deriving DecidableEq, Repr

/-- The log statements of the source, one constructor per statement, carrying
the interpolated values (log level is reflected in the names: the
constructors used by theorems below correspond to `log.error` calls where
the claim speaks of an error being logged). -/
inductive Log where
  /-- `debug(f"User {evt.sender} joined room {evt.room_id}")` -/
  | joinDebug (sender room : String)
  /-- `warning(f"Retry {i+1}/{retries} for {func} due to {e}")` -/
  | retryWarn (i : Nat) (e : Err)
  /-- `error(f"Failed {func} after {retries} retries: {e}")` -/
  | retryFail (e : Err)
  /-- `debug(f"Checking if bot is a member of room {room_id}")` -/
  | checkingMember (room : String)
  /-- `debug(f"Joined rooms: {joined_rooms}")` -/
  | joinedRoomsDebug (rooms : List String)
  /-- `debug(f"Bot is a member of room {room_id}, sending message")` -/
  | memberSending (room : String)
  /-- `error(f"Bot is not a member of the room {room_id}")` -/
  | notMember (room : String)
  /-- `error(f"Failed to send message to {room_id}: {e}")` -/
  | sendFailed (room : String) (e : Err)
  /-- `debug(f"Creating direct message room with user {user_id}")` -/
  | creatingDM (user : String)
  /-- `debug(f"Created direct message room ID: {room_id}")` -/
  | createdDM (room : String)
  /-- `debug(f"Sent direct message to {user_id}")` -/
  | sentDM (user : String)
  /-- `error(f"Failed to send direct message to {user_id}: {e}")` -/
  | dmFailed (user : String) (e : Err)
  /-- `debug("Creating an invite link")` -/
  | creatingInvite
  /-- `error(f"403 Forbidden Error: ... {url}")` -/
  | forbidden403 (url : String)
  /-- `debug("Ignoring state event")` -/
  | ignoringState
  /-- `debug("Starting invite creation in the background")` -/
  | startingInvite
  /-- `debug("Waiting 5 seconds before sending the welcome message")` -/
  | waitingBefore
  /-- `debug(f"Formatted welcome message: {msg}")` -/
  | formattedWelcome (msg : String)
  /-- `debug("Sending notification to room")` -/
  | sendingNotification
  /-- `debug(f"Formatted notification message: {m}")` -/
  | formattedNotification (msg : String)
  /-- `debug("Waiting for the invite link to be created")` -/
  | waitingInvite
  /-- `debug(f"Formatted invite message with link: {m}")` -/
  | formattedInvite (msg : String)
deriving DecidableEq, Repr

/-- Result of one coroutine: the outbound calls made, the log lines emitted,
and either a normal return or a raised exception. -/
structure Out (α : Type) where
  acts : List Action
  logs : List Log
  res : Except Err α

def Out.pureO (a : α) : Out α := ⟨[], [], .ok a⟩

def Out.bindO (x : Out α) (f : α → Out β) : Out β :=
  match x.res with
  | .error e => ⟨x.acts, x.logs, .error e⟩
  | .ok a =>
      let y := f a
      ⟨x.acts ++ y.acts, x.logs ++ y.logs, y.res⟩

instance : Monad Out where
  pure := Out.pureO
  bind := Out.bindO

/-- Emit one log line. -/
def logO (l : Log) : Out Unit := ⟨[], [l], .ok ()⟩

/-- Perform one outbound call whose outcome is `r`. -/
def actO (a : Action) (r : Except Err α) : Out α := ⟨[a], [], r⟩

/-- Raise an exception. -/
def raiseO (e : Err) : Out α := ⟨[], [], .error e⟩

/-- `try: body except Exception as e: log.error(...)` — the whole body runs;
a raised exception is replaced by an error log line and a normal return. -/
def Out.catchLog (x : Out Unit) (handler : Err → Log) : Out Unit :=
  match x.res with
  | .ok _ => x
  | .error e => ⟨x.acts, x.logs ++ [handler e], .ok ()⟩

/-- HTTP response as `create_invite` consumes it: the status code and the
value of `response.json()["pk"]` when present. -/
structure HttpResp where
  status : Nat
  pk : Option String
deriving DecidableEq, Repr

/-- Behaviour of the matrix client and of the external HTTP endpoint.
Calls wrapped by `retry` take the attempt number, so distinct attempts may
have distinct outcomes. -/
structure Env where
  joinedRooms : Nat → Except Err (List String)
  sendNotice : String → String → Nat → Except Err Unit
  createRoom : String → Nat → Except Err String
  sendText : String → String → Nat → Except Err Unit
  getStateEvent : String → String → Except Err (List (String × String))
  httpPost : String → InviteBody → Except Err HttpResp
  /-- `datetime.now(timezone.utc)` as epoch seconds. -/
  nowUtc : Nat
  /-- `datetime.now(timezone.utc).strftime(...)`: the rendered current time. -/
  nowStr : String

/-- The plugin configuration (`Config.do_update` copies exactly these keys).
`notification_room` is a string whose emptiness models Python falsiness of
the config value. -/
structure Config where
  rooms : List String
  message : String
  notification_room : String
  notification_message : String
  invite_message : String
  /-- `sso_details["API_URL"]` -/
  ssoApiUrl : String
  /-- `sso_details["AUTHENTIK_API_TOKEN"]` -/
  ssoApiToken : String

/-!  ## `Greeter.retry` (source lines 30–40)

```
async def retry(self, func, *args, retries=3, **kwargs):
    for i in range(retries):
        try:
            return await func(*args, **kwargs)
        except Exception as e:
            if i < retries - 1:
                self.log.warning(...); await asyncio.sleep(2 ** i)
            else:
                self.log.error(...); raise e
```

`retryGo f i r` is the loop from iteration `i` with `r` further iterations
available after this one (so `retries = 3` is `retryGo f 0 2`).  All call
sites in the source use the default `retries = 3`; `retry f retries`
models any `retries ≥ 1` (a Python call with `retries = 0` would make no
attempt and return `None`, a case no call site exercises). -/

def retryGo (f : Nat → Out α) (i : Nat) : Nat → Out α
  | 0 =>
      let x := f i
      match x.res with
      | .ok a => ⟨x.acts, x.logs, .ok a⟩
      | .error e => ⟨x.acts, x.logs ++ [.retryFail e], .error e⟩
  | r + 1 =>
      let x := f i
      match x.res with
      | .ok a => ⟨x.acts, x.logs, .ok a⟩
      | .error e =>
          let rest := retryGo f (i + 1) r
          ⟨x.acts ++ [.sleep (2 ^ i)] ++ rest.acts,
           x.logs ++ [.retryWarn i e] ++ rest.logs,
           rest.res⟩

def retry (f : Nat → Out α) (retries : Nat) : Out α :=
  retryGo f 0 (retries - 1)

/-- One attempt of `self.client.get_joined_rooms`. -/
def attemptJoinedRooms (env : Env) (i : Nat) : Out (List String) :=
  ⟨[.getJoinedRooms], [], env.joinedRooms i⟩

/-- One attempt of `self.client.send_notice(room_id, html=message)`. -/
def attemptSendNotice (env : Env) (room html : String) (i : Nat) : Out Unit :=
  ⟨[.sendNotice room html], [], env.sendNotice room html i⟩

/-- One attempt of `self.client.create_room(invitees=[user_id], is_direct=True)`. -/
def attemptCreateRoom (env : Env) (user : String) (i : Nat) : Out String :=
  ⟨[.createRoom user], [], env.createRoom user i⟩

/-- One attempt of `self.client.send_text(room_id, message)`. -/
def attemptSendText (env : Env) (room msg : String) (i : Nat) : Out Unit :=
  ⟨[.sendText room msg], [], env.sendText room msg i⟩

/-- `Greeter.send_if_member` (source lines 42–53). -/
def sendIfMember (env : Env) (room_id message : String) : Out Unit :=
  Out.catchLog
    (do
      logO (.checkingMember room_id)
      let joined_rooms ← retry (attemptJoinedRooms env) 3
      logO (.joinedRoomsDebug joined_rooms)
      if room_id ∈ joined_rooms then do
        logO (.memberSending room_id)
        retry (attemptSendNotice env room_id message) 3
      else
        logO (.notMember room_id))
    (fun e => .sendFailed room_id e)

/-- `Greeter.send_direct_message` (source lines 55–63). -/
def sendDirectMessage (env : Env) (user_id message : String) : Out Unit :=
  Out.catchLog
    (do
      logO (.creatingDM user_id)
      let room_id ← retry (attemptCreateRoom env user_id) 3
      logO (.createdDM room_id)
      retry (attemptSendText env room_id message) 3
      logO (.sentDM user_id))
    (fun e => .dmFailed user_id e)

/-- The flow UUID hard-coded in `create_invite`. -/
def flowId : String := "41a44b0e-1d06-4551-9ec1-41bd793b6f27"

/-- The JSON body `create_invite` sends: the caller name disambiguated with
the timestamp suffix (`f"{name}-{ts}"`, bare timestamp when the name is
falsy), expiry defaulting to now + 2 hours (7200 s), `fixed_data = {}`,
`single_use = True`, and the fixed flow id. -/
def inviteBodyOf (env : Env) (name : String) (expires : Option Nat) : InviteBody :=
  { name := if name = "" then env.nowStr else name ++ "-" ++ env.nowStr
    expires := match expires with
      | none => env.nowUtc + 7200
      | some e => e
    fixedData := []
    singleUse := true
    flow := flowId }

/-- `Greeter.create_invite` (source lines 65–97).  `requests.post` records an
`httpPost` action carrying the bearer credential; `raise_for_status` raises
`Err.httpStatus` exactly for statuses in `400..599`; `response.json()["pk"]`
raises `KeyError` when the key is absent. -/
def create_invite (env : Env) (cfg : Config) (name : String) (expires : Option Nat) :
    Out String := do
  logO .creatingInvite
  let url := cfg.ssoApiUrl ++ "/stages/invitation/invitations/"
  let body := inviteBodyOf env name expires
  let response ← actO (.httpPost url cfg.ssoApiToken body) (env.httpPost url body)
  if response.status = 403 then logO (.forbidden403 url) else Out.pureO ()
  if 400 ≤ response.status ∧ response.status < 600 then
    raiseO (.httpStatus response.status)
  else
    Out.pureO ()
  match response.pk with
  | some pk => Out.pureO pk
  | none => raiseO (.keyError "pk")

/-- Does the first list occur as a prefix of the second? -/
def isPre : List Char → List Char → Bool
  | [], _ => true
  | _ :: _, [] => false
  | a :: as, b :: bs => a = b && isPre as bs

/-- Strip the first list from the front of the second, returning the
remainder when it is a prefix. -/
def strip1 : List Char → List Char → Option (List Char)
  | [], s => some s
  | _ :: _, [] => none
  | a :: as, b :: bs => if a = b then strip1 as bs else none

/-- Worker for `pySplit`: split on every occurrence of `sep`, scanning left
to right.  Structural recursion on `fuel`; with nonempty `sep` each step
consumes at least one character, so `fuel = length + 1` never runs out. -/
def splitFuel (sep : List Char) : Nat → List Char → List (List Char)
  | 0, s => [s]
  | _ + 1, [] => [[]]
  | fuel + 1, c :: cs =>
      match strip1 sep (c :: cs) with
      | some rest => [] :: splitFuel sep fuel rest
      | none =>
          match splitFuel sep fuel cs with
          | [] => [[c]]
          | p :: ps => (c :: p) :: ps

/-- Python `s.split(sep)` for a nonempty separator: the pieces of `s`
between non-overlapping occurrences of `sep`, scanned left to right. -/
def pySplit (s sep : String) : List String :=
  (splitFuel sep.data (s.data.length + 1) s.data).map (fun l => String.mk l)

/-- Join character lists with a separator (Python `sep.join`). -/
def joinWith (sep : List Char) : List (List Char) → List Char
  | [] => []
  | [x] => x
  | x :: y :: rest => x ++ sep ++ joinWith sep (y :: rest)

/-- `mautrix`'s `parse_user_id`: strip the `@` sigil and split at the first
`:` into localpart and server name (`user_id[1:].split(":", 1)`). -/
def parse_user_id (user_id : String) : String × String :=
  match pySplit (String.mk (user_id.data.drop 1)) ":" with
  | [] => ("", "")
  | localpart :: rest =>
      (localpart, String.mk (joinWith ":".data (rest.map String.data)))

/-- Python `template.format(key=value)` for one named placeholder: every
occurrence of `{key}` is replaced by `value`.  (Adequate for the source's
templates: the substituted values contain no braces.) -/
def pyFormat1 (template key value : String) : String :=
  String.mk
    (joinWith value.data
      ((pySplit template ("\x7b" ++ key ++ "\x7d")).map String.data))

/-- Python `template.format(k1=v1, k2=v2)` for two named placeholders. -/
def pyFormat2 (template k1 v1 k2 v2 : String) : String :=
  pyFormat1 (pyFormat1 template k1 v1) k2 v2

/-- `user_link = f'<a href="https://matrix.to/#/{evt.sender}">{nick}</a>'`
(source line 114). -/
def userLink (sender : String) : String :=
  "<a href=\"https://matrix.to/#/" ++ sender ++ "\">" ++
    (parse_user_id sender).fst ++ "</a>"

/-- `room_link = f'<a href="https://matrix.to/#/{evt.room_id}">{evt.room_id}</a>'`
(source line 115). -/
def roomLink (room_id : String) : String :=
  "<a href=\"https://matrix.to/#/" ++ room_id ++ "\">" ++ room_id ++ "</a>"

/-- The rendered welcome message, source lines 113–116:
`self.config["message"].format(user=user_link)`. -/
def welcomeMsg (template sender : String) : String :=
  pyFormat1 template "user" (userLink sender)

/-- The rendered admin notification, source line 124:
`self.config["notification_message"].format(user=user_link, room=room_link)`. -/
def notificationMsg (template sender room_id : String) : String :=
  pyFormat2 template "user" (userLink sender) "room" (roomLink room_id)

/-- `base_domain = sso_details["API_URL"].split("//")[1].split("/")[0]`
(source line 131).  `none` models the `IndexError` Python raises when the
URL contains no `//`. -/
def pyBaseDomain (apiUrl : String) : Option String :=
  match (pySplit apiUrl "//").get? 1 with
  | none => none
  | some s =>
    match pySplit s "/" with
    | [] => none
    | d :: _ => some d

/-- The invite link of source lines 131–132:
`f"https://sso.{base_domain}/if/flow/simple-enrollment-flow/?itoken={invite_id}"`. -/
def inviteLinkOf (apiUrl invite_id : String) : Option String :=
  match pyBaseDomain apiUrl with
  | none => none
  | some d =>
      some ("https://sso." ++ d ++ "/if/flow/simple-enrollment-flow/?itoken=" ++
        invite_id)

/-- A join event as the handler sees it: sender, room, and whether
`evt.source & SyncStream.STATE` is set (replayed state vs. live join). -/
structure Evt where
  sender : String
  room_id : String
  sourceState : Bool

/-- `asyncio.create_task(t)`: the task starts running here; its effects are
recorded at the spawn point and its result is consumed at the matching
await. -/
def taskSpawn (t : Out α) : Out Unit := ⟨t.acts, t.logs, .ok ()⟩

/-- `await task`: yields the result of the already-spawned task (re-raising
the exception the task raised, if any). -/
def taskAwait (t : Out α) : Out α := ⟨[], [], t.res⟩

/-- The body of `Greeter.greet` for a live join in a monitored room
(source lines 107–135, the `else` branch). -/
def greetLive (env : Env) (cfg : Config) (evt : Evt) : Out Unit := do
  logO .startingInvite
  let inviteTask := create_invite env cfg ("invite-" ++ evt.sender) none
  taskSpawn inviteTask
  logO .waitingBefore
  actO (.sleep 5) (Except.ok ())
  let nick := (parse_user_id evt.sender).fst
  let msg := welcomeMsg cfg.message evt.sender
  logO (.formattedWelcome msg)
  sendIfMember env evt.room_id msg
  if cfg.notification_room ≠ "" then do
    logO .sendingNotification
    let roomnamestate ← actO (.getStateEvent evt.room_id "m.room.name")
      (env.getStateEvent evt.room_id "m.room.name")
    -- `roomname = roomnamestate.get('name', evt.room_id)`: computed and,
    -- as in the source, never used afterwards.
    let _roomname :=
      (((roomnamestate.find? (fun p => p.fst == "name")).map Prod.snd).getD
        evt.room_id)
    let notification_message :=
      notificationMsg cfg.notification_message evt.sender evt.room_id
    logO (.formattedNotification notification_message)
    sendIfMember env cfg.notification_room notification_message
  else
    Out.pureO ()
  logO .waitingInvite
  let invite_id ← taskAwait inviteTask
  let invite_link ← match inviteLinkOf cfg.ssoApiUrl invite_id with
    | some l => Out.pureO l
    | none => raiseO .indexError
  let invite_message :=
    pyFormat2 cfg.invite_message "user" nick "invite_link" invite_link
  logO (.formattedInvite invite_message)
  sendDirectMessage env evt.sender invite_message

/-- `Greeter.greet` (source lines 99–135): the `@event.on(InternalEventType.JOIN)`
handler.  Joins in unmonitored rooms are ignored; joins delivered as replayed
sync state are ignored; a live join in a monitored room runs `greetLive`. -/
def greet (env : Env) (cfg : Config) (evt : Evt) : Out Unit := do
  logO (.joinDebug evt.sender evt.room_id)
  if evt.room_id ∈ cfg.rooms then
    if evt.sourceState then
      logO .ignoringState
    else
      greetLive env cfg evt
  else
    Out.pureO ()

/-- Actions that belong to the direct-message step
(`create_room` / `send_text`). -/
def Action.isDMAct : Action → Bool
  | .createRoom _ => true
  | .sendText _ _ => true
  | _ => false

/-- Actions that are requests to the external invite API. -/
def Action.isHttpAct : Action → Bool
  | .httpPost _ _ _ => true
  | _ => false

/-- Actions that send a notice to a room. -/
def Action.isNoticeAct : Action → Bool
  | .sendNotice _ _ => true
  | _ => false

/-- Does `t` occur as a contiguous sublist of the second list? -/
def hasSubList (t : List Char) : List Char → Bool
  | [] => t.isEmpty
  | c :: cs => isPre t (c :: cs) || hasSubList t cs

/-- Does the string `t` occur as a substring of `s`? -/
def containsSub (s t : String) : Bool := hasSubList t.data s.data

/-! ### Concrete instances used by witnesses and counterexamples -/

/-- A fully successful environment. -/
def env0 : Env :=
  { joinedRooms := fun _ => .ok ["!room:example.org", "!admin:example.org"]
    sendNotice := fun _ _ _ => .ok ()
    createRoom := fun _ _ => .ok "!dm:example.org"
    sendText := fun _ _ _ => .ok ()
    getStateEvent := fun _ _ => .ok [("name", "Lobby")]
    httpPost := fun _ _ => .ok ⟨200, some "tok123"⟩
    nowUtc := 1000
    nowStr := "2026-10-12T00-00-00" }

/-- A configuration monitoring one room, with an admin notification room. -/
def cfg0 : Config :=
  { rooms := ["!room:example.org"]
    message := "Welcome {user}!"
    notification_room := "!admin:example.org"
    notification_message := "{user} joined {room}"
    invite_message := "Hi {user}: {invite_link}"
    ssoApiUrl := "https://auth.example.org/api/v3"
    ssoApiToken := "secret" }

/-- A live join by a user on `example.org`. -/
def evt0 : Evt := ⟨"@alice:example.org", "!room:example.org", false⟩

/-- A live join by a user whose home-server `other.org` is not the
`example.org` of the spec's allow-list example. -/
def evtBob : Evt := ⟨"@bob:other.org", "!room:example.org", false⟩

/-- A join event delivered as replayed sync state. -/
def evtState : Evt := ⟨"@alice:example.org", "!room:example.org", true⟩

/-- The invite API answers with a redirect-class status and a `pk` field. -/
def env300 : Env := { env0 with httpPost := fun _ _ => .ok ⟨300, some "tok300"⟩ }

/-- The invite API answers 403 without a `pk` field. -/
def env403 : Env := { env0 with httpPost := fun _ _ => .ok ⟨403, none⟩ }

/-- The room-name state fetch raises. -/
def envStateErr : Env :=
  { env0 with getStateEvent := fun _ _ => .error (.network "state fetch failed") }

/-- One attempt of a generic operation wrapped by `retry`: it performs its
network call and yields the outcome assigned to this attempt. -/
def attemptOf (call : Action) (outcome : Nat → Except Err α) (i : Nat) : Out α :=
  ⟨[call], [], outcome i⟩

/-- An operation outcome that fails twice, then succeeds. -/
def outcomeFTS : Nat → Except Err Nat
  | 0 => .error (.network "boom0")
  | 1 => .error (.network "boom1")
  | _ => .ok 7

/-- An operation outcome that fails on every attempt. -/
def outcomeAll : Nat → Except Err Nat := fun i => .error (.httpStatus (500 + i))

/-- Agrees with `outcomeAll` on attempts 0, 1, 2 and differs from attempt 3 on. -/
def outcomeAll' : Nat → Except Err Nat := fun i =>
  if i < 3 then outcomeAll i else .ok 0

/-! ## Basic lemmas about the effect monad -/

theorem bind_eq (x : Out α) (f : α → Out β) : x >>= f = Out.bindO x f := rfl

theorem bind_ok {x : Out α} {a : α} (h : x.res = .ok a) (f : α → Out β) :
    x >>= f = ⟨x.acts ++ (f a).acts, x.logs ++ (f a).logs, (f a).res⟩ := by
  rcases x with ⟨as, ls, r⟩
  cases r <;> simp_all [bind_eq, Out.bindO]

theorem bind_err {x : Out α} {e : Err} (h : x.res = .error e) (f : α → Out β) :
    x >>= f = ⟨x.acts, x.logs, .error e⟩ := by
  rcases x with ⟨as, ls, r⟩
  cases r <;> simp_all [bind_eq, Out.bindO]

theorem logO_bind (l : Log) (f : Unit → Out β) :
    logO l >>= f = ⟨(f ()).acts, l :: (f ()).logs, (f ()).res⟩ := rfl

theorem pureO_bind (a : α) (f : α → Out β) : Out.pureO a >>= f = f a := rfl

theorem acts_all_bind {p : Action → Bool} {x : Out α} {f : α → Out β}
    (hx : x.acts.all p) (hf : ∀ a, ((f a).acts.all p)) :
    ((x >>= f).acts.all p) := by
  rcases x with ⟨as, ls, r⟩
  cases r with
  | error e => simp_all [bind_eq, Out.bindO]
  | ok a => simp_all [bind_eq, Out.bindO]; exact hf a

theorem acts_all_catch {p : Action → Bool} {x : Out Unit} {h : Err → Log}
    (hx : x.acts.all p) : ((Out.catchLog x h).acts.all p) := by
  rcases x with ⟨as, ls, r⟩
  cases r <;> simp_all [Out.catchLog]

theorem catch_res (x : Out Unit) (h : Err → Log) :
    (Out.catchLog x h).res = .ok () := by
  rcases x with ⟨as, ls, r⟩
  cases r with
  | error e => simp [Out.catchLog]
  | ok u => cases u; simp [Out.catchLog]

theorem acts_all_retryGo {p : Action → Bool} {f : Nat → Out α}
    (hf : ∀ j, ((f j).acts.all p)) (hs : ∀ n, p (.sleep n) = true) :
    ∀ r i, ((retryGo f i r).acts.all p) := by
  intro r
  induction r with
  | zero =>
      intro i
      cases hres : (f i).res <;> simp_all [retryGo, hres] <;> exact hf i
  | succ r ih =>
      intro i
      cases hres : (f i).res with
      | ok a => simp_all [retryGo, hres]; exact hf i
      | error e =>
          simp only [retryGo, hres]
          simp [List.all_append, hf i, hs, ih (i + 1)]

theorem acts_all_retry {p : Action → Bool} {f : Nat → Out α}
    (hf : ∀ j, ((f j).acts.all p)) (hs : ∀ n, p (.sleep n) = true) (n : Nat) :
    ((retry f n).acts.all p) :=
  acts_all_retryGo hf hs (n - 1) 0

theorem mk_ok_bind (as : List Action) (ls : List Log) (a : α) (f : α → Out β) :
    (⟨as, ls, .ok a⟩ : Out α) >>= f =
      ⟨as ++ (f a).acts, ls ++ (f a).logs, (f a).res⟩ := rfl

theorem mk_err_bind (as : List Action) (ls : List Log) (e : Err) (f : α → Out β) :
    (⟨as, ls, .error e⟩ : Out α) >>= f = ⟨as, ls, .error e⟩ := rfl

theorem catch_acts (x : Out Unit) (h : Err → Log) :
    (Out.catchLog x h).acts = x.acts := by
  rcases x with ⟨as, ls, r⟩
  cases r <;> rfl

/-! ## Lemmas about the two guarded senders -/

theorem sendIfMember_res (env : Env) (r m : String) :
    (sendIfMember env r m).res = .ok () := catch_res _ _

theorem sendDirectMessage_res (env : Env) (u m : String) :
    (sendDirectMessage env u m).res = .ok () := catch_res _ _

theorem sendIfMember_acts_all {p : Action → Bool} (env : Env) (r m : String)
    (h1 : p .getJoinedRooms = true) (h2 : ∀ s h, p (.sendNotice s h) = true)
    (hs : ∀ n, p (.sleep n) = true) :
    ((sendIfMember env r m).acts.all p) := by
  unfold sendIfMember
  apply acts_all_catch
  apply acts_all_bind
  · simp [logO]
  intro _
  apply acts_all_bind
  · exact acts_all_retry (fun j => by simp [attemptJoinedRooms, h1]) hs 3
  intro jr
  apply acts_all_bind
  · simp [logO]
  intro _
  by_cases hmem : r ∈ jr
  · rw [if_pos hmem]
    apply acts_all_bind
    · simp [logO]
    intro _
    exact acts_all_retry (fun j => by simp [attemptSendNotice, h2]) hs 3
  · rw [if_neg hmem]
    simp [logO]

theorem sendDirectMessage_acts_all {p : Action → Bool} (env : Env) (u m : String)
    (h1 : ∀ s, p (.createRoom s) = true) (h2 : ∀ s t, p (.sendText s t) = true)
    (hs : ∀ n, p (.sleep n) = true) :
    ((sendDirectMessage env u m).acts.all p) := by
  unfold sendDirectMessage
  apply acts_all_catch
  apply acts_all_bind
  · simp [logO]
  intro _
  apply acts_all_bind
  · exact acts_all_retry (fun j => by simp [attemptCreateRoom, h1]) hs 3
  intro room
  apply acts_all_bind
  · simp [logO]
  intro _
  apply acts_all_bind
  · exact acts_all_retry (fun j => by simp [attemptSendText, h2]) hs 3
  intro _
  simp [logO]

theorem sendIfMember_noDM (env : Env) (r m : String) :
    ((sendIfMember env r m).acts.all (fun a => !a.isDMAct)) :=
  sendIfMember_acts_all env r m rfl (fun _ _ => rfl) (fun _ => rfl)

theorem sendIfMember_noHttp (env : Env) (r m : String) :
    ((sendIfMember env r m).acts.all (fun a => !a.isHttpAct)) :=
  sendIfMember_acts_all env r m rfl (fun _ _ => rfl) (fun _ => rfl)

theorem sendDirectMessage_noHttp (env : Env) (u m : String) :
    ((sendDirectMessage env u m).acts.all (fun a => !a.isHttpAct)) :=
  sendDirectMessage_acts_all env u m (fun _ => rfl) (fun _ _ => rfl) (fun _ => rfl)

/-! ## Lemmas about `create_invite` -/

theorem create_invite_acts (env : Env) (cfg : Config) (n : String) (exp : Option Nat) :
    (create_invite env cfg n exp).acts =
      [.httpPost (cfg.ssoApiUrl ++ "/stages/invitation/invitations/")
        cfg.ssoApiToken (inviteBodyOf env n exp)] := by
  simp only [create_invite]
  cases hres : env.httpPost (cfg.ssoApiUrl ++ "/stages/invitation/invitations/")
      (inviteBodyOf env n exp) with
  | error e => simp [hres, logO, actO, Out.pureO, mk_ok_bind, mk_err_bind]
  | ok resp =>
      simp only [hres, logO, actO, mk_ok_bind, mk_err_bind, List.nil_append]
      by_cases h403 : resp.status = 403 <;>
        by_cases hge : 400 ≤ resp.status ∧ resp.status < 600 <;>
          cases hpk : resp.pk <;>
            simp [h403, hge, hpk, Out.pureO, raiseO, logO, mk_ok_bind, mk_err_bind]

theorem countP_bind {p : Action → Bool} (x : Out α) (f : α → Out β) :
    ((x >>= f).acts.countP p) =
      x.acts.countP p +
        (match x.res with
          | .ok a => ((f a).acts.countP p)
          | .error _ => 0) := by
  rcases x with ⟨as, ls, r⟩
  cases r <;> simp [bind_eq, Out.bindO, List.countP_append]

theorem countP_eq_zero_of_all {p : Action → Bool} {l : List Action}
    (h : (l.all fun a => !p a) = true) : l.countP p = 0 := by
  rw [List.countP_eq_zero]
  intro a ha
  simpa using (List.all_eq_true.mp h) a ha

theorem mem_acts_bind_left {a : Action} {x : Out α} (f : α → Out β)
    (h : a ∈ x.acts) : a ∈ (x >>= f).acts := by
  rcases x with ⟨as, ls, r⟩
  cases r <;> simp_all [bind_eq, Out.bindO]

theorem mem_acts_bind_right {a : Action} {x : Out α} {v : α}
    (hx : x.res = .ok v) (f : α → Out β) (h : a ∈ (f v).acts) :
    a ∈ (x >>= f).acts := by
  rw [bind_ok hx]
  simp [h]

theorem mem_retryGo_head {f : Nat → Out α} {a : Action}
    (h : ∀ j, a ∈ (f j).acts) : ∀ (r i : Nat), a ∈ (retryGo f i r).acts := by
  intro r
  induction r with
  | zero =>
      intro i
      cases hres : (f i).res <;> simp [retryGo, hres] <;> exact h i
  | succ r ih =>
      intro i
      cases hres : (f i).res with
      | ok val => simp [retryGo, hres]; exact h i
      | error e =>
          simp only [retryGo, hres]
          simp [List.mem_append]
          exact Or.inl (h i)

theorem createRoom_mem_sendDirectMessage (env : Env) (u m : String) :
    Action.createRoom u ∈ (sendDirectMessage env u m).acts := by
  unfold sendDirectMessage
  rw [catch_acts]
  apply mem_acts_bind_right (x := logO (.creatingDM u)) rfl
  apply mem_acts_bind_left
  exact mem_retryGo_head (fun j => by simp [attemptCreateRoom]) 2 0

theorem create_invite_run (env : Env) (cfg : Config) (n : String)
    (exp : Option Nat) (resp : HttpResp)
    (hres : env.httpPost (cfg.ssoApiUrl ++ "/stages/invitation/invitations/")
        (inviteBodyOf env n exp) = .ok resp) :
    create_invite env cfg n exp =
      ⟨[.httpPost (cfg.ssoApiUrl ++ "/stages/invitation/invitations/")
          cfg.ssoApiToken (inviteBodyOf env n exp)],
       .creatingInvite ::
         (if resp.status = 403 then
           [.forbidden403 (cfg.ssoApiUrl ++ "/stages/invitation/invitations/")]
         else []),
       if 400 ≤ resp.status ∧ resp.status < 600 then
         .error (.httpStatus resp.status)
       else
         match resp.pk with
         | some pk => .ok pk
         | none => .error (.keyError "pk")⟩ := by
  simp only [create_invite]
  simp only [hres, logO, actO, mk_ok_bind, mk_err_bind, List.nil_append]
  by_cases h403 : resp.status = 403 <;>
    by_cases hge : 400 ≤ resp.status ∧ resp.status < 600 <;>
      cases hpk : resp.pk <;>
        simp [h403, hge, hpk, Out.pureO, raiseO, logO, mk_ok_bind, mk_err_bind]

theorem sendIfMember_http_count (env : Env) (r m : String) :
    ((sendIfMember env r m).acts.countP (fun a => a.isHttpAct)) = 0 :=
  countP_eq_zero_of_all (sendIfMember_noHttp env r m)

theorem sendDirectMessage_http_count (env : Env) (u m : String) :
    ((sendDirectMessage env u m).acts.countP (fun a => a.isHttpAct)) = 0 :=
  countP_eq_zero_of_all (sendDirectMessage_noHttp env u m)

theorem create_invite_http_count (env : Env) (cfg : Config) (n : String)
    (exp : Option Nat) :
    ((create_invite env cfg n exp).acts.countP (fun a => a.isHttpAct)) = 1 := by
  rw [create_invite_acts]
  rfl

theorem isHttpAct_sleep (n : Nat) : Action.isHttpAct (.sleep n) = false := rfl

theorem isHttpAct_getStateEvent (r t : String) :
    Action.isHttpAct (.getStateEvent r t) = false := rfl

theorem forall_mem_of_all {p : Action → Bool} {l : List Action}
    (h : (l.all fun a => !p a) = true) : ∀ a ∈ l, p a = false := by
  intro a ha
  simpa using (List.all_eq_true.mp h) a ha

theorem greetLive_http_count (env : Env) (cfg : Config) (evt : Evt) :
    ((greetLive env cfg evt).acts.countP (fun a => a.isHttpAct)) = 1 := by
  unfold greetLive
  simp only [countP_bind, logO, taskSpawn, actO, Out.pureO, raiseO, taskAwait,
    sendIfMember_res, sendIfMember_http_count, sendDirectMessage_http_count,
    create_invite_http_count, List.countP_nil, List.countP_cons,
    isHttpAct_sleep, isHttpAct_getStateEvent]
  repeat' split
  all_goals try simp_all
  all_goals apply forall_mem_of_all
  all_goals
    repeat'
      first
      | exact sendIfMember_noHttp _ _ _
      | exact sendDirectMessage_noHttp _ _ _
      | apply acts_all_bind
      | split
      | intro x
      | simp [logO, taskAwait, actO, Out.pureO, raiseO, Action.isHttpAct]

theorem greet_live (env : Env) (cfg : Config) (evt : Evt)
    (hroom : evt.room_id ∈ cfg.rooms) (hstate : evt.sourceState = false) :
    greet env cfg evt =
      ⟨(greetLive env cfg evt).acts,
       .joinDebug evt.sender evt.room_id :: (greetLive env cfg evt).logs,
       (greetLive env cfg evt).res⟩ := by
  unfold greet
  simp [logO, mk_ok_bind, if_pos hroom, hstate]

theorem formattedWelcome_mem_greetLive (env : Env) (cfg : Config) (evt : Evt) :
    Log.formattedWelcome (welcomeMsg cfg.message evt.sender) ∈
      (greetLive env cfg evt).logs := by
  unfold greetLive
  simp only [logO, taskSpawn, actO, mk_ok_bind, List.nil_append]
  simp [List.mem_cons, List.mem_append]

theorem greetLive_res_ok_dm (env : Env) (cfg : Config) (evt : Evt)
    (hres : (greetLive env cfg evt).res = .ok ()) :
    Action.createRoom evt.sender ∈ (greetLive env cfg evt).acts := by
  unfold greetLive at hres ⊢
  simp only [logO, taskSpawn, actO, mk_ok_bind, List.nil_append] at hres ⊢
  rw [bind_ok (sendIfMember_res env evt.room_id (welcomeMsg cfg.message evt.sender))] at hres ⊢
  by_cases hn : cfg.notification_room ≠ ""
  · rw [if_pos hn] at hres ⊢
    simp only [logO, actO, mk_ok_bind, List.nil_append] at hres ⊢
    cases hse : env.getStateEvent evt.room_id "m.room.name" with
    | error e =>
        rw [hse] at hres
        simp only [mk_err_bind] at hres
        simp at hres
    | ok st =>
        rw [hse] at hres
        simp only [mk_ok_bind, logO] at hres ⊢
        rw [bind_ok (sendIfMember_res env cfg.notification_room
          (notificationMsg cfg.notification_message evt.sender evt.room_id))] at hres ⊢
        simp only [logO, mk_ok_bind, taskAwait] at hres ⊢
        cases hid : (create_invite env cfg ("invite-" ++ evt.sender) none).res with
        | error e =>
            rw [hid] at hres
            simp only [mk_err_bind] at hres
            simp at hres
        | ok id =>
            rw [hid] at hres
            simp only [mk_ok_bind] at hres ⊢
            cases hlink : inviteLinkOf cfg.ssoApiUrl id with
            | none =>
                rw [hlink] at hres
                simp only [mk_err_bind, raiseO, mk_ok_bind, logO] at hres
                simp at hres
            | some l =>
                rw [hlink] at hres
                simp only [Out.pureO, mk_ok_bind, logO, List.nil_append] at hres ⊢
                simp [List.mem_append, List.mem_cons, createRoom_mem_sendDirectMessage]
  · rw [if_neg hn] at hres ⊢
    simp only [Out.pureO, mk_ok_bind, logO, taskAwait, List.nil_append] at hres ⊢
    cases hid : (create_invite env cfg ("invite-" ++ evt.sender) none).res with
    | error e =>
        rw [hid] at hres
        simp only [mk_err_bind] at hres
        simp at hres
    | ok id =>
        rw [hid] at hres
        simp only [mk_ok_bind] at hres ⊢
        cases hlink : inviteLinkOf cfg.ssoApiUrl id with
        | none =>
            rw [hlink] at hres
            simp only [mk_err_bind, raiseO, mk_ok_bind, logO] at hres
            simp at hres
        | some l =>
            rw [hlink] at hres
            simp only [Out.pureO, mk_ok_bind, logO, List.nil_append] at hres ⊢
            simp [List.mem_append, List.mem_cons, createRoom_mem_sendDirectMessage]

theorem isDMAct_httpPost (u b : String) (bo : InviteBody) :
    Action.isDMAct (.httpPost u b bo) = false := rfl

theorem isDMAct_sleep (n : Nat) : Action.isDMAct (.sleep n) = false := rfl

theorem isDMAct_getStateEvent (r t : String) :
    Action.isDMAct (.getStateEvent r t) = false := rfl

theorem greetLive_state_err (env : Env) (cfg : Config) (evt : Evt) (e : Err)
    (hnotif : cfg.notification_room ≠ "")
    (herr : env.getStateEvent evt.room_id "m.room.name" = .error e) :
    (greetLive env cfg evt).res = .error e
    ∧ ((greetLive env cfg evt).acts.all fun a => !a.isDMAct) := by
  unfold greetLive
  simp only [logO, taskSpawn, actO, mk_ok_bind, List.nil_append]
  rw [bind_ok (sendIfMember_res env evt.room_id (welcomeMsg cfg.message evt.sender))]
  rw [if_pos hnotif]
  simp only [logO, actO, mk_ok_bind, List.nil_append]
  rw [herr]
  simp only [mk_err_bind]
  constructor
  · trivial
  · simp [List.all_append, List.all_cons, create_invite_acts, sendIfMember_noDM,
      isDMAct_httpPost, isDMAct_sleep, isDMAct_getStateEvent]

/-! ## Claim theorems -/

/-- C1, counterexample: the sender `@bob:other.org` is on a home-server that is
not in the spec's example allow-list `["example.org"]`, yet the handler still
performs the direct-message step (it creates the direct room and sends the
invite text): the claimed skip does not happen, because the code has no
home-server allow-list at all. -/
theorem greet_dm_not_skipped_for_foreign_homeserver :
    (parse_user_id "@bob:other.org").snd ∉ (["example.org"] : List String)
    ∧ Action.createRoom "@bob:other.org" ∈ (greet env0 cfg0 evtBob).acts
    ∧ Action.sendText "!dm:example.org"
        "Hi bob: https://sso.auth.example.org/if/flow/simple-enrollment-flow/?itoken=tok123" ∈
        (greet env0 cfg0 evtBob).acts := by
  refine ⟨by decide, by decide, by decide⟩

/-- C1, amended: the handler has no home-server allow-list.  For every live
join in a monitored room, the single configured welcome template is rendered
(regardless of the sender's home-server), and whenever the handler completes
without an exception it performs the direct-message step for the joining
user — it is never skipped on home-server grounds. -/
theorem greet_no_homeserver_gating (env : Env) (cfg : Config) (evt : Evt)
    (hroom : evt.room_id ∈ cfg.rooms) (hstate : evt.sourceState = false) :
    Log.formattedWelcome (welcomeMsg cfg.message evt.sender) ∈ (greet env cfg evt).logs
    ∧ ((greet env cfg evt).res = .ok () →
        Action.createRoom evt.sender ∈ (greet env cfg evt).acts) := by
  rw [greet_live env cfg evt hroom hstate]
  refine ⟨?_, ?_⟩
  · simp [formattedWelcome_mem_greetLive]
  · intro h
    simpa using greetLive_res_ok_dm env cfg evt (by simpa using h)

/-- C1 witness: the amended claim at a concrete fully-successful run, with
the completion hypothesis discharged by evaluation. -/
theorem greet_no_homeserver_gating_witness :
    Log.formattedWelcome (welcomeMsg cfg0.message evt0.sender) ∈
      (greet env0 cfg0 evt0).logs
    ∧ Action.createRoom evt0.sender ∈ (greet env0 cfg0 evt0).acts :=
  ⟨(greet_no_homeserver_gating env0 cfg0 evt0 (by decide) rfl).1,
   (greet_no_homeserver_gating env0 cfg0 evt0 (by decide) rfl).2 (by rfl)⟩

/-- C2, counterexample: for API base `https://auth.example.org/api/v3` and
token `abc123` the code builds `https://sso.auth.example.org/...` (the `sso.`
prefix is glued onto the full host), not the claimed
`https://sso.example.org/...` on the registrable domain. -/
theorem invite_link_uses_full_host_cex :
    inviteLinkOf "https://auth.example.org/api/v3" "abc123" =
      some "https://sso.auth.example.org/if/flow/simple-enrollment-flow/?itoken=abc123"
    ∧ inviteLinkOf "https://auth.example.org/api/v3" "abc123" ≠
      some "https://sso.example.org/if/flow/simple-enrollment-flow/?itoken=abc123" := by
  refine ⟨by decide, by decide⟩

/-- C2, amended: the invite link is
`https://sso.<host of the API base URL>/if/flow/simple-enrollment-flow/?itoken=<token>`,
where the host is the whole authority component of the configured API base
(`split("//")[1].split("/")[0]`), with no reduction to the registrable
domain. -/
theorem invite_link_construction (apiUrl token d : String)
    (h : pyBaseDomain apiUrl = some d) :
    inviteLinkOf apiUrl token =
      some ("https://sso." ++ d ++ "/if/flow/simple-enrollment-flow/?itoken=" ++ token) := by
  unfold inviteLinkOf
  rw [h]

/-- C2 witness: the amended construction at the spec's example inputs. -/
theorem invite_link_construction_witness :
    inviteLinkOf "https://auth.example.org/api/v3" "abc123" =
      some ("https://sso." ++ "auth.example.org" ++
        "/if/flow/simple-enrollment-flow/?itoken=" ++ "abc123") :=
  invite_link_construction "https://auth.example.org/api/v3" "abc123"
    "auth.example.org" (by decide)

/-- C3: the room-name state is fetched and yields the name `Lobby`, yet the
notification actually sent to the admin room is formatted with the room link
built from the room ID only — the fetched name never appears in it (the
`roomname` variable is dead), contradicting the claim that the notification
includes the room name. -/
theorem notification_message_omits_room_name :
    env0.getStateEvent "!room:example.org" "m.room.name" = .ok [("name", "Lobby")]
    ∧ Log.formattedNotification
        (notificationMsg cfg0.notification_message "@alice:example.org"
          "!room:example.org") ∈ (greet env0 cfg0 evt0).logs
    ∧ containsSub
        (notificationMsg cfg0.notification_message "@alice:example.org"
          "!room:example.org") "Lobby" = false
    ∧ containsSub
        (notificationMsg cfg0.notification_message "@alice:example.org"
          "!room:example.org") "!room:example.org" = true := by
  refine ⟨rfl, by decide, by decide, by decide⟩

/-- C4: a join event flagged as replayed sync state, or in a room outside the
allow-list, produces no outbound call of any kind; and in every case at most
one invite-API request is issued per handled event. -/
theorem greet_filtered_no_outbound_and_at_most_once (env : Env) (cfg : Config)
    (evt : Evt) :
    (evt.sourceState = true ∨ evt.room_id ∉ cfg.rooms → (greet env cfg evt).acts = [])
    ∧ ((greet env cfg evt).acts.countP (fun a => a.isHttpAct)) ≤ 1 := by
  by_cases hroom : evt.room_id ∈ cfg.rooms
  · cases hstate : evt.sourceState with
    | true =>
        have hacts : (greet env cfg evt).acts = [] := by
          unfold greet
          simp [logO, mk_ok_bind, if_pos hroom, hstate]
        exact ⟨fun _ => hacts, by simp [hacts]⟩
    | false =>
        refine ⟨?_, ?_⟩
        · rintro (h | h)
          · simp at h
          · exact absurd hroom h
        · rw [greet_live env cfg evt hroom hstate]
          simp [greetLive_http_count]
  · have hacts : (greet env cfg evt).acts = [] := by
      unfold greet
      simp [logO, mk_ok_bind, if_neg hroom, Out.pureO]
    exact ⟨fun _ => hacts, by simp [hacts]⟩

/-- C4 witness: a replayed-state join produces no outbound call. -/
theorem greet_filtered_witness :
    (greet env0 cfg0 evtState).acts = []
    ∧ ((greet env0 cfg0 evtState).acts.countP (fun a => a.isHttpAct)) ≤ 1 :=
  ⟨(greet_filtered_no_outbound_and_at_most_once env0 cfg0 evtState).1 (Or.inl rfl),
   (greet_filtered_no_outbound_and_at_most_once env0 cfg0 evtState).2⟩

/-- C5: for an operation wrapped by `retry` with the default 3 attempts:
failing twice then succeeding makes exactly 3 calls with back-off delays of
1 s then 2 s and returns the success; failing three times makes exactly
3 calls and re-raises the final exception; and the result depends only on
the outcomes of attempts 0, 1 and 2 — no 4th attempt is consulted. -/
theorem retry_policy_spec {α : Type} :
    (∀ (c : Action) (outcome : Nat → Except Err α) (e0 e1 : Err) (a : α),
      outcome 0 = .error e0 → outcome 1 = .error e1 → outcome 2 = .ok a →
      retry (attemptOf c outcome) 3 =
        ⟨[c, .sleep 1, c, .sleep 2, c],
         [.retryWarn 0 e0, .retryWarn 1 e1], .ok a⟩)
    ∧ (∀ (c : Action) (outcome : Nat → Except Err α) (e0 e1 e2 : Err),
      outcome 0 = .error e0 → outcome 1 = .error e1 → outcome 2 = .error e2 →
      retry (attemptOf c outcome) 3 =
        ⟨[c, .sleep 1, c, .sleep 2, c],
         [.retryWarn 0 e0, .retryWarn 1 e1, .retryFail e2], .error e2⟩)
    ∧ (∀ (c : Action) (outcome outcome' : Nat → Except Err α),
      (∀ i, i < 3 → outcome i = outcome' i) →
      retry (attemptOf c outcome) 3 = retry (attemptOf c outcome') 3) := by
  refine ⟨?_, ?_, ?_⟩
  · intro c outcome e0 e1 a h0 h1 h2
    simp [retry, retryGo, attemptOf, h0, h1, h2]
  · intro c outcome e0 e1 e2 h0 h1 h2
    simp [retry, retryGo, attemptOf, h0, h1, h2]
  · intro c outcome outcome' h
    have h0 := h 0 (by omega)
    have h1 := h 1 (by omega)
    have h2 := h 2 (by omega)
    simp [retry, retryGo, attemptOf, h0, h1, h2]

/-- C5 witness: the three parts of the retry policy at concrete outcomes. -/
theorem retry_policy_spec_witness :
    retry (attemptOf Action.getJoinedRooms outcomeFTS) 3 =
      ⟨[.getJoinedRooms, .sleep 1, .getJoinedRooms, .sleep 2, .getJoinedRooms],
       [.retryWarn 0 (.network "boom0"), .retryWarn 1 (.network "boom1")], .ok 7⟩
    ∧ retry (attemptOf Action.getJoinedRooms outcomeAll) 3 =
      ⟨[.getJoinedRooms, .sleep 1, .getJoinedRooms, .sleep 2, .getJoinedRooms],
       [.retryWarn 0 (.httpStatus 500), .retryWarn 1 (.httpStatus 501),
        .retryFail (.httpStatus 502)], .error (.httpStatus 502)⟩
    ∧ retry (attemptOf Action.getJoinedRooms outcomeAll) 3 =
        retry (attemptOf Action.getJoinedRooms outcomeAll') 3 :=
  ⟨retry_policy_spec.1 Action.getJoinedRooms outcomeFTS _ _ _ rfl rfl rfl,
   retry_policy_spec.2.1 Action.getJoinedRooms outcomeAll _ _ _ rfl rfl rfl,
   retry_policy_spec.2.2 Action.getJoinedRooms outcomeAll outcomeAll'
     (fun _ hi => (if_pos hi).symm)⟩

/-- C6: when the successfully fetched joined-rooms list does not contain the
target room, the guarded sender performs zero `send_notice` calls for the
message and logs the absence error. -/
theorem send_if_member_absent_no_send (env : Env) (room msg : String)
    (L : List String) (hjr : env.joinedRooms 0 = .ok L) (hmem : room ∉ L) :
    ((sendIfMember env room msg).acts.countP (fun a => a.isNoticeAct)) = 0
    ∧ Log.notMember room ∈ (sendIfMember env room msg).logs := by
  have hrun : sendIfMember env room msg =
      ⟨[.getJoinedRooms],
       [.checkingMember room, .joinedRoomsDebug L, .notMember room], .ok ()⟩ := by
    unfold sendIfMember
    simp [retry, retryGo, attemptJoinedRooms, hjr, logO, mk_ok_bind, if_neg hmem,
      Out.catchLog]
  rw [hrun]
  exact ⟨rfl, by simp⟩

/-- C6 witness: the bot is not in `!absent:x`, so nothing is sent there. -/
theorem send_if_member_absent_no_send_witness :
    ((sendIfMember env0 "!absent:x" "hi").acts.countP (fun a => a.isNoticeAct)) = 0
    ∧ Log.notMember "!absent:x" ∈ (sendIfMember env0 "!absent:x" "hi").logs :=
  send_if_member_absent_no_send env0 "!absent:x" "hi"
    ["!room:example.org", "!admin:example.org"] rfl (by decide)

/-- C7, counterexample: a redirect-class status (300) is not a success, yet
`raise_for_status` does not raise for it, so `create_invite` returns the token
instead of raising — refuting the claim that every non-success status raises. -/
theorem create_invite_redirect_status_returns_token :
    env300.httpPost (cfg0.ssoApiUrl ++ "/stages/invitation/invitations/")
        (inviteBodyOf env300 "invite-x" none) = .ok ⟨300, some "tok300"⟩
    ∧ (create_invite env300 cfg0 "invite-x" none).res = .ok "tok300" := by
  refine ⟨rfl, by rfl⟩

/-- C7, amended: `create_invite` issues exactly one POST carrying the bearer
credential; the body has the caller name suffixed with the timestamp (for a
nonempty name), `expires` defaulting to now + 2 hours, `single_use = true`
and the fixed flow id; a 403 response logs the permissions hint; every status
in `400..599` raises instead of returning a token (statuses below 400 fall
through); on a non-4xx/5xx response carrying `pk`, the token is returned. -/
theorem create_invite_contract (env : Env) (cfg : Config) (nm : String)
    (exp : Option Nat) (resp : HttpResp)
    (hres : env.httpPost (cfg.ssoApiUrl ++ "/stages/invitation/invitations/")
        (inviteBodyOf env nm exp) = .ok resp) :
    (create_invite env cfg nm exp).acts =
      [.httpPost (cfg.ssoApiUrl ++ "/stages/invitation/invitations/")
        cfg.ssoApiToken (inviteBodyOf env nm exp)]
    ∧ (nm ≠ "" → (inviteBodyOf env nm exp).name = nm ++ "-" ++ env.nowStr)
    ∧ (exp = none → (inviteBodyOf env nm exp).expires = env.nowUtc + 7200)
    ∧ (inviteBodyOf env nm exp).singleUse = true
    ∧ (inviteBodyOf env nm exp).flow = flowId
    ∧ (resp.status = 403 →
        Log.forbidden403 (cfg.ssoApiUrl ++ "/stages/invitation/invitations/") ∈
          (create_invite env cfg nm exp).logs)
    ∧ (400 ≤ resp.status → resp.status < 600 →
        (create_invite env cfg nm exp).res = .error (.httpStatus resp.status))
    ∧ (∀ t, resp.pk = some t → ¬(400 ≤ resp.status ∧ resp.status < 600) →
        (create_invite env cfg nm exp).res = .ok t) := by
  have hrun := create_invite_run env cfg nm exp resp hres
  refine ⟨create_invite_acts env cfg nm exp, ?_, ?_, rfl, rfl, ?_, ?_, ?_⟩
  · intro h
    simp [inviteBodyOf, if_neg h]
  · intro h
    simp [inviteBodyOf, h]
  · intro h403
    rw [hrun]
    simp [h403]
  · intro hge hlt
    rw [hrun]
    simp [hge, hlt]
  · intro t hpk hn
    rw [hrun]
    simp [if_neg hn, hpk]

/-- C7 witness: the contract at a 403 response without `pk`. -/
theorem create_invite_contract_witness :
    (create_invite env403 cfg0 "invite-y" none).acts =
      [.httpPost (cfg0.ssoApiUrl ++ "/stages/invitation/invitations/")
        cfg0.ssoApiToken (inviteBodyOf env403 "invite-y" none)]
    ∧ Log.forbidden403 (cfg0.ssoApiUrl ++ "/stages/invitation/invitations/") ∈
        (create_invite env403 cfg0 "invite-y" none).logs
    ∧ (create_invite env403 cfg0 "invite-y" none).res = .error (.httpStatus 403) := by
  have h := create_invite_contract env403 cfg0 "invite-y" none ⟨403, none⟩ rfl
  exact ⟨h.1, h.2.2.2.2.2.1 rfl, h.2.2.2.2.2.2.1 (by decide) (by decide)⟩

/-- C8: neither guarded sender ever propagates an exception to its caller:
whatever the environment does (including retry exhaustion inside), both
return normally. -/
theorem sends_never_propagate (env : Env) (room msg user msg2 : String) :
    (sendIfMember env room msg).res = .ok ()
    ∧ (sendDirectMessage env user msg2).res = .ok () :=
  ⟨sendIfMember_res env room msg, sendDirectMessage_res env user msg2⟩

/-- C9: for sender `@alice:example.org` and template `Welcome {user}!`, the
rendered welcome message is exactly the template with the placeholder replaced
by an anchor whose href is `https://matrix.to/#/@alice:example.org` and whose
visible text is the localpart `alice`. -/
theorem welcome_message_anchor :
    welcomeMsg "Welcome {user}!" "@alice:example.org" =
      "Welcome <a href=\"https://matrix.to/#/@alice:example.org\">alice</a>!"
    ∧ containsSub (welcomeMsg "Welcome {user}!" "@alice:example.org")
        "<a href=\"https://matrix.to/#/@alice:example.org\">alice</a>" = true := by
  refine ⟨by decide, by decide⟩

/-- C10: when an admin notification room is configured and the un-guarded,
un-retried room-name state fetch raises, the exception escapes the join
handler (its result is that error) and no direct-message action (room
creation or text send) is ever performed. -/
theorem state_fetch_failure_aborts_dm (env : Env) (cfg : Config) (evt : Evt)
    (e : Err) (hroom : evt.room_id ∈ cfg.rooms) (hstate : evt.sourceState = false)
    (hnotif : cfg.notification_room ≠ "")
    (herr : env.getStateEvent evt.room_id "m.room.name" = .error e) :
    (greet env cfg evt).res = .error e
    ∧ ((greet env cfg evt).acts.all fun a => !a.isDMAct) := by
  rw [greet_live env cfg evt hroom hstate]
  have h := greetLive_state_err env cfg evt e hnotif herr
  exact ⟨by simp [h.1], by simp [h.2]⟩

/-- C10 witness: a failing state fetch aborts the handler before the DM. -/
theorem state_fetch_failure_aborts_dm_witness :
    (greet envStateErr cfg0 evt0).res = .error (.network "state fetch failed")
    ∧ ((greet envStateErr cfg0 evt0).acts.all fun a => !a.isDMAct) :=
  state_fetch_failure_aborts_dm envStateErr cfg0 evt0 (.network "state fetch failed")
    (by decide) rfl (by decide) rfl

end Welcome
